import Mathlib

/-!
Verification of the reconciliation/diff engine and alert-matching engine of the
SMWS catalog-mirroring backend (`scraper.service.ts`), via a shallow embedding
of its pure classification, parsing, matching and persistence-update logic.
-/

namespace Backend

/-- `ScrapedWhiskyListItem { title, href }`: a lightweight listing reference. -/
structure ScrapedWhiskyListItem where
  title : String
  href : String
deriving DecidableEq, Repr

/-- `distilleryId` can be numeric (`68`) or alphanumeric (`"B1"`), as in the
`ScrapedWhiskyData` interface. -/
inductive DistilleryId where
  | num (n : Nat)
  | alpha (s : String)
deriving DecidableEq, Repr

/-- JavaScript `.toString()` on a `distilleryId` value. -/
def DistilleryId.toStringJS : DistilleryId → String
  | .num n => toString n
  | .alpha s => s

/-- The `ScrapedWhiskyData` interface of `scraper.service.ts`. -/
structure ScrapedWhiskyData where
  name : String
  fullCode : String
  distilleryId : Option DistilleryId
  caskNo : Option String
  price : String
  abv : String
  age : String
  caskType : String
  profile : String
  distillery : String
  region : String
  available : Bool
  url : String
  is_new : Bool
deriving DecidableEq, Repr

/-- `findNewWhiskies`: scraped items whose title is not among the existing
titles (`Set` membership on raw titles). -/
def findNewWhiskies (scrapedWhiskies existingWhiskies : List ScrapedWhiskyListItem) :
    List ScrapedWhiskyListItem :=
  let existingTitles := existingWhiskies.map (fun w => w.title)
  scrapedWhiskies.filter (fun w => !existingTitles.contains w.title)

/-- `findRemovedWhiskies`: existing items whose title is not among the scraped
titles. -/
def findRemovedWhiskies (scrapedWhiskies existingWhiskies : List ScrapedWhiskyListItem) :
    List ScrapedWhiskyListItem :=
  let scrapedTitles := scrapedWhiskies.map (fun w => w.title)
  existingWhiskies.filter (fun w => !scrapedTitles.contains w.title)

/-- The `existingAvailableWhiskies` computation inlined in `runScraper`:
crawl entries whose title occurs among the existing (mirror) entries. -/
def retainedWhiskies (scrapedWhiskies existingWhiskies : List ScrapedWhiskyListItem) :
    List ScrapedWhiskyListItem :=
  scrapedWhiskies.filter (fun s => existingWhiskies.any (fun e => e.title == s.title))

/-- Titles (displayNames) of a list of listing references. -/
def titlesOf (ws : List ScrapedWhiskyListItem) : List String :=
  ws.map (fun w => w.title)

/-- Value of a digit string, as accumulated left to right. -/
def digitsToNat (cs : List Char) : Nat :=
  cs.foldl (fun acc c => 10 * acc + (c.toNat - Char.toNat '0')) 0

/-- JavaScript `parseInt(s)` with the default radix 10: skip leading
whitespace, read an optional sign and then the longest leading digit run;
`none` models `NaN` (no digit found). -/
def parseIntJS (s : String) : Option Int :=
  let cs := s.toList.dropWhile (fun c => c == ' ' || c == '\t' || c == '\n' || c == '\r')
  match cs with
  | '-' :: rest =>
      let ds := rest.takeWhile Char.isDigit
      if ds.isEmpty then none else some (-(digitsToNat ds : Int))
  | '+' :: rest =>
      let ds := rest.takeWhile Char.isDigit
      if ds.isEmpty then none else some ((digitsToNat ds : Int))
  | _ =>
      let ds := cs.takeWhile Char.isDigit
      if ds.isEmpty then none else some ((digitsToNat ds : Int))

/-- JavaScript `toLowerCase()` restricted to ASCII, as a map over the
character list (all values compared by the alert engine are ASCII). -/
def toLowerJS (s : String) : String := String.mk (s.data.map Char.toLower)

/-- One row of the `user_alerts` table, as consumed by `checkAlertsAndNotify`. -/
structure UserAlert where
  user_id : String
  guild_id : String
  alert_type : String
  alert_value : String
deriving DecidableEq, Repr

/-- The per-(whisky, alert) predicate of `checkAlertsAndNotify`: the
`switch (alert.alert_type)` computing `isMatch`. -/
def alertMatches (whisky : ScrapedWhiskyData) (alert : UserAlert) : Bool :=
  if alert.alert_type == "distillery" then
    let distilleryNameMatch := toLowerJS whisky.distillery == toLowerJS alert.alert_value
    let distilleryCodeMatch :=
      match whisky.distilleryId with
      | some id => toLowerJS id.toStringJS == toLowerJS alert.alert_value
      | none => false
    distilleryNameMatch || distilleryCodeMatch
  else if alert.alert_type == "region" then
    toLowerJS whisky.region == toLowerJS alert.alert_value
  else if alert.alert_type == "age" then
    match parseIntJS alert.alert_value, parseIntJS whisky.age with
    | some minAge, some whiskyAge => decide (minAge ≤ whiskyAge)
    | _, _ => false
  else false

/-- The notification directives emitted by `checkAlertsAndNotify`: one per
matching (whisky, alert) pair, whiskies outer loop, alerts inner loop. -/
def alertNotifications (newWhiskies : List ScrapedWhiskyData) (alerts : List UserAlert) :
    List (String × String × String) :=
  newWhiskies.flatMap (fun whisky =>
    (alerts.filter (fun alert => alertMatches whisky alert)).map
      (fun alert => (alert.user_id, alert.guild_id, whisky.name)))

/-- One row of the `smws_live` table. Timestamps are integers (epoch seconds). -/
structure DbRow where
  name : String
  fullCode : String
  distillery_code : Option String
  cask_no : Option String
  price : String
  abv : String
  age : String
  cask_type : String
  profile : String
  distillery : String
  region : String
  available : Bool
  url : String
  is_new : Bool
  new_since : Option Int
  created_at : Int
  updated_at : Int
deriving DecidableEq, Repr

/-- JavaScript truthiness of a `distilleryId` value (`0` and `""` are falsy). -/
def DistilleryId.truthy : DistilleryId → Bool
  | .num n => n != 0
  | .alpha s => s != ""

/-- `getDistilleryNameByCode`: lookup in `smws_distilleries` by
`smws_id = distilleryId.toString()`. -/
def getDistilleryNameByCode (distilleries : List (String × String)) (id : DistilleryId) :
    Option String :=
  (distilleries.find? (fun p => p.fst == id.toStringJS)).map (fun p => p.snd)

/-- The enrichment step at the top of the `saveWhiskiesToDatabase` loop:
`if (whisky.distilleryId && !whisky.distillery)` resolve the distillery name
from the lookup table (empty string when not found). -/
def enrichDistillery (distilleries : List (String × String)) (w : ScrapedWhiskyData) :
    ScrapedWhiskyData :=
  match w.distilleryId with
  | some id =>
      if id.truthy && w.distillery == "" then
        { w with distillery := (getDistilleryNameByCode distilleries id).getD "" }
      else w
  | none => w

/-- The `DO UPDATE SET` clause of the upsert in `saveWhiskiesToDatabase`:
overwrite name, price, abv, age, cask_type, profile, distillery, region,
available, url and refresh `updated_at`; every other column keeps its value. -/
def descriptiveUpdate (r : DbRow) (w : ScrapedWhiskyData) (now : Int) : DbRow :=
  { r with name := w.name, price := w.price, abv := w.abv, age := w.age,
           cask_type := w.caskType, profile := w.profile, distillery := w.distillery,
           region := w.region, available := w.available, url := w.url,
           updated_at := now }

/-- The `INSERT` values of the upsert in `saveWhiskiesToDatabase`:
`is_new := isNew` and `new_since := isNew ? new Date() : null`
(`distillery_code` is `distilleryId?.toString() || null`). -/
def insertedRow (w : ScrapedWhiskyData) (isNew : Bool) (now : Int) : DbRow :=
  { name := w.name, fullCode := w.fullCode,
    distillery_code :=
      match w.distilleryId with
      | some id => if id.toStringJS == "" then none else some id.toStringJS
      | none => none,
    cask_no := w.caskNo, price := w.price, abv := w.abv, age := w.age,
    cask_type := w.caskType, profile := w.profile, distillery := w.distillery,
    region := w.region, available := w.available, url := w.url,
    is_new := isNew, new_since := if isNew then some now else none,
    created_at := now, updated_at := now }

/-- The `INSERT ... ON CONFLICT (fullCode) DO UPDATE` statement: update the
conflicting row(s) when the natural code is already present, insert otherwise. -/
def upsertWhisky (table : List DbRow) (w : ScrapedWhiskyData) (isNew : Bool) (now : Int) :
    List DbRow :=
  if table.any (fun r => r.fullCode == w.fullCode) then
    table.map (fun r => if r.fullCode == w.fullCode then descriptiveUpdate r w now else r)
  else
    table ++ [insertedRow w isNew now]

/-- `saveWhiskiesToDatabase(whiskies, isNew)`: per record, enrich the
distillery name then upsert; a per-record persistence failure (`saveOk` false)
is caught, skips that record and continues. Returns the table and `savedCount`. -/
def saveWhiskiesToDatabase (distilleries : List (String × String))
    (saveOk : ScrapedWhiskyData → Bool) (table : List DbRow)
    (whiskies : List ScrapedWhiskyData) (isNew : Bool) (now : Int) : List DbRow × Nat :=
  whiskies.foldl
    (fun acc whisky =>
      let w := enrichDistillery distilleries whisky
      if saveOk w then (upsertWhisky acc.1 w isNew now, acc.2 + 1) else acc)
    (table, 0)

/-- Seconds per day, for the `INTERVAL '3 days'` threshold. -/
def secondsPerDay : Int := 86400

/-- The `WHERE` clause of `updateIsNewFlags`:
`is_new = true AND new_since IS NOT NULL AND new_since < NOW() - INTERVAL '3 days'`. -/
def isStale (now : Int) (r : DbRow) : Bool :=
  r.is_new &&
    (match r.new_since with
     | some t => decide (t < now - 3 * secondsPerDay)
     | none => false)

/-- `updateIsNewFlags`: clear `is_new` (and refresh `updated_at`) on every row
matched by `isStale`; leave every other row untouched. -/
def updateIsNewFlags (now : Int) (table : List DbRow) : List DbRow :=
  table.map (fun r => if isStale now r then { r with is_new := false, updated_at := now } else r)

/-- A sample persisted row used by concrete witnesses. -/
def sampleRow (isn : Bool) (ns : Option Int) : DbRow :=
  { name := "Old name", fullCode := "1.100", distillery_code := some "1",
    cask_no := some "100", price := "£40", abv := "55%", age := "10",
    cask_type := "Hogshead", profile := "Old", distillery := "GlenB",
    region := "Islay", available := false, url := "u0", is_new := isn,
    new_since := ns, created_at := 0, updated_at := 0 }

/-- A sample scraped record used by concrete witnesses. -/
def sampleWhisky : ScrapedWhiskyData :=
  { name := "Cask 1.100 Fresh", fullCode := "1.100", distilleryId := some (.num 1),
    caskNo := some "100", price := "£50", abv := "57%", age := "12",
    caskType := "Barrel", profile := "Spicy", distillery := "GlenA",
    region := "Speyside", available := true, url := "u1", is_new := true }

/-- `scrapeWhiskyDetails`: for each listing item, fetch and parse its detail
page. `Except.error` models a per-item exception (timeout, missing selector),
caught and skipping only that item; `.ok none` models `page.evaluate`
returning `null` (no `.caskNo` marker — not a single bottle); a parsed record
with an empty `name` is likewise skipped (`if (details && details.name)`). -/
def scrapeWhiskyDetails
    (fetchDetail : ScrapedWhiskyListItem → Except Unit (Option ScrapedWhiskyData))
    (whiskies : List ScrapedWhiskyListItem) : List ScrapedWhiskyData :=
  whiskies.filterMap (fun whisky =>
    match fetchDetail whisky with
    | .ok (some details) => if details.name != "" then some details else none
    | .ok none => none
    | .error _ => none)

/-- `collectAllWhiskyBasicInfo`: request listing pages starting at page 1,
appending each page's items; stop at the first page with zero items or the
first per-page error, keeping everything accumulated so far (soft halt).
`fuel` bounds the number of page requests, modelling the finite catalog. -/
def collectPages (pages : Nat → Except Unit (List ScrapedWhiskyListItem)) :
    Nat → Nat → List ScrapedWhiskyListItem
  | 0, _ => []
  | fuel + 1, currentPage =>
    match pages currentPage with
    | .error _ => []
    | .ok [] => []
    | .ok items => items ++ collectPages pages fuel (currentPage + 1)

/-- `getExistingWhiskiesFromDB`: `SELECT name, url FROM smws_live`, mapped to
listing items; a query error is caught and yields the empty mirror. -/
def getExistingWhiskiesFromDB (dbRead : Except Unit (List (String × String))) :
    List ScrapedWhiskyListItem :=
  match dbRead with
  | .ok rows => rows.map (fun p => { title := p.fst, href := p.snd })
  | .error _ => []

/-- One observable effect issued by a `runScraper` cycle, in program order. -/
inductive Effect where
  | markUnavailable (title : String)
  | markAvailable (title : String)
  | fetchDetail (title : String)
  | upsert (fullCode : String)
  | notify (userId : String) (whiskyName : String)
  | expire
deriving DecidableEq, Repr

/-- The phase an effect belongs to, in the strict order of `runScraper`'s
steps 5–10. -/
def Effect.kindIndex : Effect → Nat
  | .markUnavailable _ => 0
  | .markAvailable _ => 1
  | .fetchDetail _ => 2
  | .upsert _ => 3
  | .notify _ _ => 4
  | .expire => 5

/-- The notification effects of `checkAlertsAndNotify`: nothing when there
are no new whiskies; a failed `getAllAlerts` read is caught by the method's
own try/catch and aborts only the alert phase. -/
def checkAlertsEffects (newWhiskies : List ScrapedWhiskyData)
    (alertsRead : Except Unit (List UserAlert)) : List Effect :=
  if newWhiskies.isEmpty then []
  else
    match alertsRead with
    | .error _ => []
    | .ok alerts =>
        (alertNotifications newWhiskies alerts).map (fun d => Effect.notify d.1 d.2.2)

/-- The collaborators of one `runScraper` cycle together with their failure
modes. An `Except.error` value models the corresponding call site throwing. -/
structure Env where
  gotoOk : Bool
  pages : Nat → Except Unit (List ScrapedWhiskyListItem)
  maxPages : Nat
  dbRead : Except Unit (List (String × String))
  fetchDetail : ScrapedWhiskyListItem → Except Unit (Option ScrapedWhiskyData)
  distilleries : List (String × String)
  saveOk : ScrapedWhiskyData → Bool
  table : List DbRow
  alertsRead : Except Unit (List UserAlert)
  now : Int

/-- The effect trace of steps 5–10 of `runScraper`, in program order: mark
the removed set unavailable, mark the retained set available, fetch details
for the new set (whiskies outer loop of step 7), upsert each successfully
parsed candidate (step 8 issues one `INSERT ... ON CONFLICT` per record, keyed
by its natural code after enrichment), emit one notification per matching
(record, alert) pair (step 9), then run the freshness expiry (step 10). -/
def cycleTrace (removedWhiskies retained newWhiskies : List ScrapedWhiskyListItem)
    (detailedWhiskies : List ScrapedWhiskyData) (dist : List (String × String))
    (alertsRead : Except Unit (List UserAlert)) : List Effect :=
  removedWhiskies.map (fun w => Effect.markUnavailable w.title) ++
  retained.map (fun w => Effect.markAvailable w.title) ++
  (if newWhiskies.isEmpty then []
   else newWhiskies.map (fun w => Effect.fetchDetail w.title)) ++
  detailedWhiskies.map (fun w => Effect.upsert (enrichDistillery dist w).fullCode) ++
  checkAlertsEffects detailedWhiskies alertsRead ++
  [Effect.expire]

/-- The body of `runScraper`'s `try` block (steps 1–10). The initial
navigation may throw to the top-level handler; every later failure mode is
caught closer to its call site, so the body reaches its `return []`. The
second component is the ordered trace of issued effects. -/
def runScraperBody (env : Env) : Except Unit (List ScrapedWhiskyData × List Effect) :=
  if env.gotoOk = false then .error ()
  else
    let allWhiskies := collectPages env.pages env.maxPages 1
    let existingWhiskies := getExistingWhiskiesFromDB env.dbRead
    let newWhiskies := findNewWhiskies allWhiskies existingWhiskies
    let detailedWhiskies :=
      if newWhiskies.isEmpty then []
      else scrapeWhiskyDetails env.fetchDetail newWhiskies
    .ok ([], cycleTrace (findRemovedWhiskies allWhiskies existingWhiskies)
      (retainedWhiskies allWhiskies existingWhiskies) newWhiskies detailedWhiskies
      env.distilleries env.alertsRead)

/-- `runScraper`: the whole method, including the top-level `catch` that
logs and returns `[]`. -/
def runScraper (env : Env) : Except Unit (List ScrapedWhiskyData × List Effect) :=
  match runScraperBody env with
  | .ok r => .ok r
  | .error _ => .ok ([], [])

/-- A sample cycle environment exercising every effect kind: crawl `[A, B]`,
mirror `[B, D]`, so `A` is new (and parses to `sampleWhisky`, matching an
age-10 alert), `D` is removed and `B` is retained. -/
def sampleEnv : Env :=
  { gotoOk := true,
    pages := fun p =>
      if p = 1 then
        .ok [{ title := "A", href := "/a" }, { title := "B", href := "/b" }]
      else .ok [],
    maxPages := 5,
    dbRead := .ok [("B", "ub"), ("D", "ud")],
    fetchDetail := fun w => if w.title = "A" then .ok (some sampleWhisky) else .ok none,
    distilleries := [],
    saveOk := fun _ => true,
    table := [],
    alertsRead := .ok [{ user_id := "u", guild_id := "g",
                         alert_type := "age", alert_value := "10" }],
    now := 0 }

/-- An effect list is internally ordered by phase and all its phases lie in
`[lo, hi]`. Used to assemble the ordering of a whole cycle trace. -/
def SegOrd (l : List Effect) (lo hi : Nat) : Prop :=
  l.Pairwise (fun a b => a.kindIndex ≤ b.kindIndex) ∧
  ∀ e ∈ l, lo ≤ e.kindIndex ∧ e.kindIndex ≤ hi

end Backend

namespace Backend

theorem mem_titlesOf {t : String} {ws : List ScrapedWhiskyListItem} :
    t ∈ titlesOf ws ↔ ∃ w ∈ ws, w.title = t := by
  simp [titlesOf]

theorem mem_findNewWhiskies {w : ScrapedWhiskyListItem}
    {C M : List ScrapedWhiskyListItem} :
    w ∈ findNewWhiskies C M ↔ w ∈ C ∧ w.title ∉ titlesOf M := by
  simp [findNewWhiskies, titlesOf, List.mem_filter, List.contains_iff_exists_mem_beq]

theorem mem_findRemovedWhiskies {w : ScrapedWhiskyListItem}
    {C M : List ScrapedWhiskyListItem} :
    w ∈ findRemovedWhiskies C M ↔ w ∈ M ∧ w.title ∉ titlesOf C := by
  simp [findRemovedWhiskies, titlesOf, List.mem_filter, List.contains_iff_exists_mem_beq]

theorem mem_retainedWhiskies {w : ScrapedWhiskyListItem}
    {C M : List ScrapedWhiskyListItem} :
    w ∈ retainedWhiskies C M ↔ w ∈ C ∧ w.title ∈ titlesOf M := by
  simp [retainedWhiskies, titlesOf, List.mem_filter]

/-- **C1.** For every mirror state `M` and crawl result `C`, the displayName
sets of `findNewWhiskies C M`, `findRemovedWhiskies C M` and the retained
entries are pairwise disjoint, and their union is exactly the union of the
displayNames of `C` and `M`. -/
theorem classification_partitions_titles (C M : List ScrapedWhiskyListItem) (t : String) :
    ((t ∈ titlesOf (findNewWhiskies C M) ∨ t ∈ titlesOf (findRemovedWhiskies C M) ∨
        t ∈ titlesOf (retainedWhiskies C M)) ↔ (t ∈ titlesOf C ∨ t ∈ titlesOf M)) ∧
    ¬(t ∈ titlesOf (findNewWhiskies C M) ∧ t ∈ titlesOf (findRemovedWhiskies C M)) ∧
    ¬(t ∈ titlesOf (findNewWhiskies C M) ∧ t ∈ titlesOf (retainedWhiskies C M)) ∧
    ¬(t ∈ titlesOf (findRemovedWhiskies C M) ∧ t ∈ titlesOf (retainedWhiskies C M)) := by
  have hnew : t ∈ titlesOf (findNewWhiskies C M) ↔ t ∈ titlesOf C ∧ t ∉ titlesOf M := by
    constructor
    · rw [mem_titlesOf]
      rintro ⟨w, hw, rfl⟩
      rcases mem_findNewWhiskies.mp hw with ⟨hC, hM⟩
      exact ⟨mem_titlesOf.mpr ⟨w, hC, rfl⟩, hM⟩
    · rintro ⟨hC, hM⟩
      rcases mem_titlesOf.mp hC with ⟨w, hw, rfl⟩
      exact mem_titlesOf.mpr ⟨w, mem_findNewWhiskies.mpr ⟨hw, hM⟩, rfl⟩
  have hrem : t ∈ titlesOf (findRemovedWhiskies C M) ↔ t ∈ titlesOf M ∧ t ∉ titlesOf C := by
    constructor
    · rw [mem_titlesOf]
      rintro ⟨w, hw, rfl⟩
      rcases mem_findRemovedWhiskies.mp hw with ⟨hM, hC⟩
      exact ⟨mem_titlesOf.mpr ⟨w, hM, rfl⟩, hC⟩
    · rintro ⟨hM, hC⟩
      rcases mem_titlesOf.mp hM with ⟨w, hw, rfl⟩
      exact mem_titlesOf.mpr ⟨w, mem_findRemovedWhiskies.mpr ⟨hw, hC⟩, rfl⟩
  have hret : t ∈ titlesOf (retainedWhiskies C M) ↔ t ∈ titlesOf C ∧ t ∈ titlesOf M := by
    constructor
    · rw [mem_titlesOf]
      rintro ⟨w, hw, rfl⟩
      rcases mem_retainedWhiskies.mp hw with ⟨hC, hM⟩
      exact ⟨mem_titlesOf.mpr ⟨w, hC, rfl⟩, hM⟩
    · rintro ⟨hC, hM⟩
      rcases mem_titlesOf.mp hC with ⟨w, hw, rfl⟩
      exact mem_titlesOf.mpr ⟨w, mem_retainedWhiskies.mpr ⟨hw, hM⟩, rfl⟩
  rw [hnew, hrem, hret]
  by_cases hC : t ∈ titlesOf C <;> by_cases hM : t ∈ titlesOf M <;> simp [hC, hM]

/-- **C3.** A `minAge` (`age`) alert matches a record iff both the record's
`age` and the alert's value parse as integers and the parsed age is at least
the parsed alert value; in particular a record whose `age` does not parse
(e.g. `"unknown"`) never matches, and evaluation is total (no error). -/
theorem minAge_alert_matches_iff (w : ScrapedWhiskyData) (a : UserAlert)
    (h : a.alert_type = "age") :
    (alertMatches w a = true ↔
      ∃ mv wa, parseIntJS a.alert_value = some mv ∧ parseIntJS w.age = some wa ∧ mv ≤ wa) ∧
    (parseIntJS w.age = none → alertMatches w a = false) := by
  constructor
  · simp only [alertMatches, h]
    norm_num
    rcases hv : parseIntJS a.alert_value with _ | mv <;>
      rcases hw : parseIntJS w.age with _ | wa <;> simp [hv, hw]
  · intro hw
    simp [alertMatches, h, hw]

/-- Witness for C3 at the spec's concrete inputs: `age = "18"` matches
`minAge = "15"`, `age = "12"` does not, and `age = "unknown"` never matches. -/
theorem minAge_alert_matches_iff_witness :
    alertMatches
        { name := "w18", fullCode := "1.1", distilleryId := none, caskNo := none,
          price := "", abv := "", age := "18", caskType := "", profile := "",
          distillery := "", region := "", available := true, url := "", is_new := true }
        { user_id := "u", guild_id := "g", alert_type := "age", alert_value := "15" } = true ∧
    alertMatches
        { name := "w12", fullCode := "1.2", distilleryId := none, caskNo := none,
          price := "", abv := "", age := "12", caskType := "", profile := "",
          distillery := "", region := "", available := true, url := "", is_new := true }
        { user_id := "u", guild_id := "g", alert_type := "age", alert_value := "15" } = false ∧
    alertMatches
        { name := "wu", fullCode := "1.3", distilleryId := none, caskNo := none,
          price := "", abv := "", age := "unknown", caskType := "", profile := "",
          distillery := "", region := "", available := true, url := "", is_new := true }
        { user_id := "u", guild_id := "g", alert_type := "age", alert_value := "15" } = false := by
  refine ⟨?_, ?_, ?_⟩
  · exact (minAge_alert_matches_iff _ _ rfl).1.mpr ⟨15, 18, by decide, by decide, by decide⟩
  · by_contra hne
    have h12 := (minAge_alert_matches_iff
      { name := "w12", fullCode := "1.2", distilleryId := none, caskNo := none,
        price := "", abv := "", age := "12", caskType := "", profile := "",
        distillery := "", region := "", available := true, url := "", is_new := true }
      { user_id := "u", guild_id := "g", alert_type := "age", alert_value := "15" } rfl).1
    rcases h12.mp (by revert hne; decide) with ⟨mv, wa, hmv, hwa, hle⟩
    rw [show parseIntJS "15" = some 15 by decide] at hmv
    rw [show parseIntJS "12" = some 12 by decide] at hwa
    cases hmv; cases hwa; omega
  · exact (minAge_alert_matches_iff _ _ rfl).2 (by decide)

/-- **C4.** A `distillery` (origin) alert matches a record iff the record's
distillery name case-insensitively equals the alert value, or the record's
distillery id rendered as a string case-insensitively equals the alert value. -/
theorem distillery_alert_matches_iff (w : ScrapedWhiskyData) (a : UserAlert)
    (h : a.alert_type = "distillery") :
    alertMatches w a = true ↔
      (toLowerJS w.distillery = toLowerJS a.alert_value ∨
       ∃ id, w.distilleryId = some id ∧ toLowerJS id.toStringJS = toLowerJS a.alert_value) := by
  simp only [alertMatches, h]
  rcases hid : w.distilleryId with _ | id <;> simp [hid]

/-- Witness for C4 at the spec's concrete inputs: a record with distillery
name `"Ardbeg"` and distillery id `59` matches both the alert value
`"ardbeg"` and the alert value `"59"`. -/
theorem distillery_alert_matches_iff_witness :
    alertMatches
        { name := "A", fullCode := "59.1", distilleryId := some (.num 59), caskNo := none,
          price := "", abv := "", age := "", caskType := "", profile := "",
          distillery := "Ardbeg", region := "", available := true, url := "", is_new := true }
        { user_id := "u", guild_id := "g", alert_type := "distillery",
          alert_value := "ardbeg" } = true ∧
    alertMatches
        { name := "A", fullCode := "59.1", distilleryId := some (.num 59), caskNo := none,
          price := "", abv := "", age := "", caskType := "", profile := "",
          distillery := "Ardbeg", region := "", available := true, url := "", is_new := true }
        { user_id := "u", guild_id := "g", alert_type := "distillery",
          alert_value := "59" } = true := by
  constructor
  · exact (distillery_alert_matches_iff _ _ rfl).mpr (Or.inl (by decide))
  · exact (distillery_alert_matches_iff _ _ rfl).mpr
      (Or.inr ⟨.num 59, rfl, by decide⟩)

/-- **C10 counterexample.** The claim fails as stated: with crawl
`C = [{Glen}]` and mirror `M = [{glen}, {Glen}]`, the crawled reference
`{Glen}` and the mirror entry `{glen}` differ only in letter case, yet the
crawled reference is retained (its exact title also occurs in the mirror),
not classified as new. -/
theorem classification_case_counterexample :
    toLowerJS (ScrapedWhiskyListItem.mk "Glen" "").title =
        toLowerJS (ScrapedWhiskyListItem.mk "glen" "").title ∧
    (ScrapedWhiskyListItem.mk "Glen" "").title ≠ (ScrapedWhiskyListItem.mk "glen" "").title ∧
    ScrapedWhiskyListItem.mk "glen" "" ∈
      [ScrapedWhiskyListItem.mk "glen" "", ScrapedWhiskyListItem.mk "Glen" ""] ∧
    ScrapedWhiskyListItem.mk "Glen" "" ∉
      findNewWhiskies [ScrapedWhiskyListItem.mk "Glen" ""]
        [ScrapedWhiskyListItem.mk "glen" "", ScrapedWhiskyListItem.mk "Glen" ""] ∧
    ScrapedWhiskyListItem.mk "Glen" "" ∈
      retainedWhiskies [ScrapedWhiskyListItem.mk "Glen" ""]
        [ScrapedWhiskyListItem.mk "glen" "", ScrapedWhiskyListItem.mk "Glen" ""] := by
  decide

/-- **C10 (amended).** Classification compares titles by case-sensitive exact
equality: a crawled reference and a mirror entry whose titles differ only in
letter case are classified as new and removed respectively — provided no
mirror entry carries the crawled title verbatim and no crawl entry carries
the mirror title verbatim. -/
theorem case_mismatch_classifies_new_and_removed
    (C M : List ScrapedWhiskyListItem) (c m : ScrapedWhiskyListItem)
    (hc : c ∈ C) (hm : m ∈ M)
    (hlow : toLowerJS c.title = toLowerJS m.title) (hne : c.title ≠ m.title)
    (hcM : c.title ∉ titlesOf M) (hmC : m.title ∉ titlesOf C) :
    c ∈ findNewWhiskies C M ∧ m ∈ findRemovedWhiskies C M ∧
    c ∉ retainedWhiskies C M ∧ m.title ∉ titlesOf (retainedWhiskies C M) := by
  refine ⟨mem_findNewWhiskies.mpr ⟨hc, hcM⟩, mem_findRemovedWhiskies.mpr ⟨hm, hmC⟩, ?_, ?_⟩
  · intro hmem
    exact hcM (mem_retainedWhiskies.mp hmem).2
  · intro hmem
    rcases mem_titlesOf.mp hmem with ⟨w, hw, hwt⟩
    exact hmC (mem_titlesOf.mpr ⟨w, (mem_retainedWhiskies.mp hw).1, hwt⟩)

theorem enrichDistillery_fullCode (dist : List (String × String)) (w : ScrapedWhiskyData) :
    (enrichDistillery dist w).fullCode = w.fullCode := by
  unfold enrichDistillery
  rcases h : w.distilleryId with _ | id <;> simp [h]
  split <;> rfl

/-- **C2.** Re-upserting a record whose `fullCode` is already present
overwrites the descriptive fields, overwrites availability and refreshes
`updated_at`, but leaves the row's original `is_new`, `new_since`,
`created_at`, `distillery_code` and `cask_no` unchanged; `is_new`/`new_since`
are set (from the `isNew` argument and the current time) only on a true
insert. -/
theorem saveWhiskies_upsert_policy (dist : List (String × String))
    (saveOk : ScrapedWhiskyData → Bool) (table : List DbRow)
    (whisky : ScrapedWhiskyData) (isNew : Bool) (now : Int)
    (hok : saveOk (enrichDistillery dist whisky) = true) :
    (∀ (i : Nat) (R : DbRow), table[i]? = some R → R.fullCode = whisky.fullCode →
      ∃ R', ((saveWhiskiesToDatabase dist saveOk table [whisky] isNew now).1)[i]? = some R' ∧
        R'.name = (enrichDistillery dist whisky).name ∧
        R'.price = (enrichDistillery dist whisky).price ∧
        R'.abv = (enrichDistillery dist whisky).abv ∧
        R'.age = (enrichDistillery dist whisky).age ∧
        R'.cask_type = (enrichDistillery dist whisky).caskType ∧
        R'.profile = (enrichDistillery dist whisky).profile ∧
        R'.distillery = (enrichDistillery dist whisky).distillery ∧
        R'.region = (enrichDistillery dist whisky).region ∧
        R'.available = (enrichDistillery dist whisky).available ∧
        R'.url = (enrichDistillery dist whisky).url ∧
        R'.updated_at = now ∧
        R'.is_new = R.is_new ∧ R'.new_since = R.new_since ∧
        R'.created_at = R.created_at ∧ R'.distillery_code = R.distillery_code ∧
        R'.cask_no = R.cask_no ∧ R'.fullCode = R.fullCode) ∧
    ((∀ r ∈ table, r.fullCode ≠ whisky.fullCode) →
      ∃ row, (saveWhiskiesToDatabase dist saveOk table [whisky] isNew now).1 =
          table ++ [row] ∧
        row.is_new = isNew ∧ row.new_since = (if isNew then some now else none)) := by
  have hsave : (saveWhiskiesToDatabase dist saveOk table [whisky] isNew now).1 =
      upsertWhisky table (enrichDistillery dist whisky) isNew now := by
    simp [saveWhiskiesToDatabase, hok]
  have hfc : (enrichDistillery dist whisky).fullCode = whisky.fullCode :=
    enrichDistillery_fullCode dist whisky
  constructor
  · intro i R hi hcode
    have hmem : R ∈ table := List.getElem?_mem hi
    have hany : table.any
        (fun r => r.fullCode == (enrichDistillery dist whisky).fullCode) = true := by
      rw [List.any_eq_true]
      exact ⟨R, hmem, by rw [hfc]; simp [hcode]⟩
    refine ⟨descriptiveUpdate R (enrichDistillery dist whisky) now, ?_, ?_⟩
    · rw [hsave]
      unfold upsertWhisky
      rw [if_pos hany, List.getElem?_map, hi]
      simp [hfc, hcode]
    · simp [descriptiveUpdate]
  · intro hnone
    have hany : table.any
        (fun r => r.fullCode == (enrichDistillery dist whisky).fullCode) = false := by
      rw [List.any_eq_false]
      intro r hr
      simp [hfc]
      exact hnone r hr
    refine ⟨insertedRow (enrichDistillery dist whisky) isNew now, ?_, rfl, rfl⟩
    rw [hsave]
    unfold upsertWhisky
    rw [if_neg (by simp [hany])]

/-- Witness for C2: a mirror with one row for `fullCode = "1.100"` that is
recently added since time 5; re-upserting a candidate with the same code at
time 77 updates price and availability and refreshes `updated_at`, yet keeps
`is_new = true` and `new_since = some 5`; upserting into an empty table
inserts with `is_new = isNew` and `new_since = some now`. -/
theorem saveWhiskies_upsert_policy_witness :
    (∃ R', ((saveWhiskiesToDatabase [] (fun _ => true)
          [sampleRow true (some 5)] [sampleWhisky] false 77).1)[0]? = some R' ∧
        R'.price = "£50" ∧ R'.available = true ∧ R'.updated_at = 77 ∧
        R'.is_new = true ∧ R'.new_since = some 5) ∧
    (∃ row, (saveWhiskiesToDatabase [] (fun _ => true)
          [] [sampleWhisky] true 77).1 = [] ++ [row] ∧
        row.is_new = true ∧ row.new_since = some 77) := by
  constructor
  · obtain ⟨R', hR, h1, h2, h3, h4, h5, h6, h7, h8, h9, h10, h11, h12, h13, h14, h15, h16⟩ :=
      (saveWhiskies_upsert_policy [] (fun _ => true) [sampleRow true (some 5)]
        sampleWhisky false 77 rfl).1 0 (sampleRow true (some 5)) rfl rfl
    exact ⟨R', hR, h2, h9, h11, h12, h13⟩
  · obtain ⟨row, hrow, h1, h2⟩ :=
      (saveWhiskies_upsert_policy [] (fun _ => true) [] sampleWhisky true 77 rfl).2
        (by intro r hr; cases hr)
    exact ⟨row, hrow, h1, h2⟩

/-- **C6.** After one `updateIsNewFlags` pass at time `now`, every row whose
`new_since` is set and older than the 3-day threshold has `is_new = false`,
and every row whose `new_since` is within the 3-day window keeps its
`is_new` value. -/
theorem updateIsNewFlags_spec (now : Int) (table : List DbRow) (i : Nat) (r : DbRow)
    (hi : table[i]? = some r) :
    ∃ r', (updateIsNewFlags now table)[i]? = some r' ∧
      (∀ t, r.new_since = some t → t < now - 3 * secondsPerDay → r'.is_new = false) ∧
      (∀ t, r.new_since = some t → now - 3 * secondsPerDay ≤ t → r'.is_new = r.is_new) := by
  refine ⟨if isStale now r then { r with is_new := false, updated_at := now } else r, ?_, ?_, ?_⟩
  · rw [updateIsNewFlags, List.getElem?_map, hi]; rfl
  · intro t ht hlt
    by_cases hs : isStale now r = true
    · simp [hs]
    · have : r.is_new = false := by
        rcases hin : r.is_new with _ | _
        · rfl
        · exact absurd (by simp [isStale, hin, ht, hlt]) hs
      simp [hs, this]
  · intro t ht hge
    have hs : isStale now r = false := by
      simp [isStale, ht]
      intro _
      omega
    simp [hs]

/-- Witness for C6 at the spec's concrete inputs, `now` at day 10: a row with
`new_since` at day 6 (4 days old) is cleared; a row with `new_since` at day 9
(1 day old) keeps `is_new = true`. -/
theorem updateIsNewFlags_spec_witness :
    (∃ r', (updateIsNewFlags (10 * 86400)
        [sampleRow true (some (6 * 86400)), sampleRow true (some (9 * 86400))])[0]? = some r' ∧
      r'.is_new = false) ∧
    (∃ r', (updateIsNewFlags (10 * 86400)
        [sampleRow true (some (6 * 86400)), sampleRow true (some (9 * 86400))])[1]? = some r' ∧
      r'.is_new = true) := by
  constructor
  · obtain ⟨r', h1, h2, h3⟩ := updateIsNewFlags_spec (10 * 86400)
      [sampleRow true (some (6 * 86400)), sampleRow true (some (9 * 86400))]
      0 (sampleRow true (some (6 * 86400))) rfl
    exact ⟨r', h1, h2 (6 * 86400) rfl (by norm_num [secondsPerDay])⟩
  · obtain ⟨r', h1, h2, h3⟩ := updateIsNewFlags_spec (10 * 86400)
      [sampleRow true (some (6 * 86400)), sampleRow true (some (9 * 86400))]
      1 (sampleRow true (some (9 * 86400))) rfl
    refine ⟨r', h1, ?_⟩
    rw [h3 (9 * 86400) rfl (by norm_num [secondsPerDay])]
    rfl

/-- Witness for the amended C10: with crawl `[{Glen Moray}]` and mirror
`[{glen moray}]` the crawled entry is new, the mirror entry is removed, and
nothing is retained. -/
theorem case_mismatch_classifies_new_and_removed_witness :
    ScrapedWhiskyListItem.mk "Glen Moray" "" ∈
      findNewWhiskies [ScrapedWhiskyListItem.mk "Glen Moray" ""]
        [ScrapedWhiskyListItem.mk "glen moray" ""] ∧
    ScrapedWhiskyListItem.mk "glen moray" "" ∈
      findRemovedWhiskies [ScrapedWhiskyListItem.mk "Glen Moray" ""]
        [ScrapedWhiskyListItem.mk "glen moray" ""] ∧
    ScrapedWhiskyListItem.mk "Glen Moray" "" ∉
      retainedWhiskies [ScrapedWhiskyListItem.mk "Glen Moray" ""]
        [ScrapedWhiskyListItem.mk "glen moray" ""] := by
  have h := case_mismatch_classifies_new_and_removed
    [ScrapedWhiskyListItem.mk "Glen Moray" ""] [ScrapedWhiskyListItem.mk "glen moray" ""]
    (ScrapedWhiskyListItem.mk "Glen Moray" "") (ScrapedWhiskyListItem.mk "glen moray" "")
    (by decide) (by decide) (by decide) (by decide) (by decide) (by decide)
  exact ⟨h.1, h.2.1, h.2.2.1⟩

theorem segOrd_mono {l : List Effect} {lo hi lo2 hi2 : Nat}
    (h : SegOrd l lo hi) (hlo : lo2 ≤ lo) (hhi : hi ≤ hi2) : SegOrd l lo2 hi2 :=
  ⟨h.1, fun e he => ⟨le_trans hlo (h.2 e he).1, le_trans (h.2 e he).2 hhi⟩⟩

theorem segOrd_append {l1 l2 : List Effect} {lo m hi : Nat}
    (h1 : SegOrd l1 lo m) (h2 : SegOrd l2 m hi) (hm : lo ≤ m) (hmh : m ≤ hi) :
    SegOrd (l1 ++ l2) lo hi := by
  constructor
  · rw [List.pairwise_append]
    exact ⟨h1.1, h2.1, fun a ha b hb => le_trans (h1.2 a ha).2 (h2.2 b hb).1⟩
  · intro e he
    rcases List.mem_append.mp he with h | h
    · exact ⟨(h1.2 e h).1, le_trans (h1.2 e h).2 hmh⟩
    · exact ⟨le_trans hm (h2.2 e h).1, (h2.2 e h).2⟩

theorem segOrd_map_const {α : Type} (l : List α) (f : α → Effect) (k : Nat)
    (hk : ∀ x, (f x).kindIndex = k) : SegOrd (l.map f) k k := by
  constructor
  · rw [List.pairwise_map]
    induction l with
    | nil => exact List.Pairwise.nil
    | cons x xs ih => exact List.Pairwise.cons (fun y _ => by rw [hk, hk]) ih
  · intro e he
    rcases List.mem_map.mp he with ⟨x, _, rfl⟩
    rw [hk]
    exact ⟨le_refl k, le_refl k⟩

theorem segOrd_cycleTrace (removedWhiskies retained newWhiskies : List ScrapedWhiskyListItem)
    (detailedWhiskies : List ScrapedWhiskyData) (dist : List (String × String))
    (alertsRead : Except Unit (List UserAlert)) :
    SegOrd (cycleTrace removedWhiskies retained newWhiskies detailedWhiskies dist alertsRead)
      0 5 := by
  have s0 := segOrd_map_const removedWhiskies (fun w => Effect.markUnavailable w.title) 0
    (fun _ => rfl)
  have s1 := segOrd_map_const retained (fun w => Effect.markAvailable w.title) 1
    (fun _ => rfl)
  have s2 : SegOrd (if newWhiskies.isEmpty then []
      else newWhiskies.map (fun w => Effect.fetchDetail w.title)) 2 2 := by
    split
    · exact ⟨List.Pairwise.nil, by simp⟩
    · exact segOrd_map_const newWhiskies (fun w => Effect.fetchDetail w.title) 2 (fun _ => rfl)
  have s3 := segOrd_map_const detailedWhiskies
    (fun w => Effect.upsert (enrichDistillery dist w).fullCode) 3 (fun _ => rfl)
  have s4 : SegOrd (checkAlertsEffects detailedWhiskies alertsRead) 4 4 := by
    unfold checkAlertsEffects
    split
    · exact ⟨List.Pairwise.nil, by simp⟩
    · rcases alertsRead with e | alerts
      · exact ⟨List.Pairwise.nil, by simp⟩
      · exact segOrd_map_const (alertNotifications detailedWhiskies alerts)
          (fun d => Effect.notify d.1 d.2.2) 4 (fun _ => rfl)
  have s5 : SegOrd [Effect.expire] 5 5 := by
    refine ⟨List.pairwise_singleton _ _, ?_⟩
    intro e he
    rcases List.mem_singleton.mp he with rfl
    exact ⟨le_refl 5, le_refl 5⟩
  unfold cycleTrace
  refine segOrd_append (segOrd_append (segOrd_append (segOrd_append (segOrd_append
    (segOrd_mono s0 (le_refl 0) (by omega)) s1 (by omega) (by omega))
    (segOrd_mono s2 (by omega) (le_refl 2)) (by omega) (by omega))
    (segOrd_mono s3 (by omega) (le_refl 3)) (by omega) (by omega))
    (segOrd_mono s4 (by omega) (le_refl 4)) (by omega) (by omega))
    (segOrd_mono s5 (by omega) (le_refl 5)) (by omega) (by omega)

theorem runScraper_shape (env : Env) :
    runScraper env = .ok ([], []) ∨
    ∃ tr, runScraper env = .ok ([], tr) ∧
      tr.Pairwise (fun a b => a.kindIndex ≤ b.kindIndex) := by
  unfold runScraper runScraperBody
  by_cases hg : env.gotoOk = false
  · rw [if_pos hg]
    exact Or.inl rfl
  · rw [if_neg hg]
    exact Or.inr ⟨_, rfl, (segOrd_cycleTrace _ _ _ _ _ _).1⟩

/-- **C5.** For every environment — every combination of page-load, parse,
persistence and notification failures — `runScraper` completes and returns a
value instead of propagating an exception. -/
theorem runScraper_never_throws (env : Env) : ∃ r, runScraper env = .ok r := by
  rcases runScraper_shape env with h | ⟨tr, h, _⟩
  · exact ⟨_, h⟩
  · exact ⟨_, h⟩

/-- **C9.** Whenever `runScraper` completes, its returned value is the empty
array, on the success path and on the caught-error path alike. -/
theorem runScraper_returns_empty (env : Env) (r : List ScrapedWhiskyData × List Effect)
    (h : runScraper env = .ok r) : r.1 = [] := by
  rcases runScraper_shape env with h2 | ⟨tr, h2, _⟩ <;>
    (rw [h] at h2; injection h2 with h3; subst h3; rfl)

/-- Witness for C9 on the concrete sample cycle: the scraped data (one new
whisky found, parsed, saved and notified) is not delivered through the
return value. -/
theorem runScraper_returns_empty_witness :
    ((([] : List ScrapedWhiskyData),
      [Effect.markUnavailable "D", Effect.markAvailable "B", Effect.fetchDetail "A",
       Effect.upsert "1.100", Effect.notify "u" "Cask 1.100 Fresh",
       Effect.expire]).1 : List ScrapedWhiskyData) = [] :=
  runScraper_returns_empty sampleEnv _ rfl

/-- **C7.** Within one cycle the reconciliation effects are strictly ordered
by phase: removed-unavailable marks, then retained-available marks, then the
detail fetches for the new set, then the upserts of the parsed candidates
(then notifications, then expiry). -/
theorem runScraper_effects_ordered (env : Env) (r : List ScrapedWhiskyData × List Effect)
    (h : runScraper env = .ok r) :
    r.2.Pairwise (fun a b => a.kindIndex ≤ b.kindIndex) := by
  rcases runScraper_shape env with h2 | ⟨tr, h2, hp⟩
  · rw [h] at h2; injection h2 with h3; subst h3; exact List.Pairwise.nil
  · rw [h] at h2; injection h2 with h3; subst h3; exact hp

/-- Witness for C7 on the concrete sample cycle, whose trace contains one
effect of every phase in order. -/
theorem runScraper_effects_ordered_witness :
    (([] : List ScrapedWhiskyData),
      [Effect.markUnavailable "D", Effect.markAvailable "B", Effect.fetchDetail "A",
       Effect.upsert "1.100", Effect.notify "u" "Cask 1.100 Fresh",
       Effect.expire]).2.Pairwise (fun a b => a.kindIndex ≤ b.kindIndex) :=
  runScraper_effects_ordered sampleEnv _ rfl

/-- **C8.** `scrapeWhiskyDetails` isolates per-item failures: an item whose
fetch throws (timeout), parses to `null`, or parses without a name is
skipped while every other item still processes — the output on
`l1 ++ x :: l2` equals the output on `l1` followed by the output on `l2` —
and the output is never longer than the input. -/
theorem scrapeWhiskyDetails_isolates_failures
    (fetchDetail : ScrapedWhiskyListItem → Except Unit (Option ScrapedWhiskyData))
    (l1 l2 : List ScrapedWhiskyListItem) (x : ScrapedWhiskyListItem)
    (hx : fetchDetail x = .error () ∨ fetchDetail x = .ok none ∨
      ∃ d, fetchDetail x = .ok (some d) ∧ d.name = "") :
    scrapeWhiskyDetails fetchDetail (l1 ++ x :: l2) =
      scrapeWhiskyDetails fetchDetail l1 ++ scrapeWhiskyDetails fetchDetail l2 ∧
    ∀ ws : List ScrapedWhiskyListItem,
      (scrapeWhiskyDetails fetchDetail ws).length ≤ ws.length := by
  constructor
  · unfold scrapeWhiskyDetails
    rw [List.filterMap_append]
    congr 1
    rcases hx with h | h | ⟨d, h, hd⟩
    · rw [List.filterMap_cons]; simp [h]
    · rw [List.filterMap_cons]; simp [h]
    · rw [List.filterMap_cons]; simp [h, hd]
  · intro ws
    exact List.length_filterMap_le _ _

/-- Witness for C8: the middle item `X` times out while `Y1` and `Y2` parse;
only `X` is dropped and the output length is 2 of 3. -/
theorem scrapeWhiskyDetails_isolates_failures_witness :
    scrapeWhiskyDetails
        (fun w => if w.title = "X" then .error () else .ok (some sampleWhisky))
        ([ScrapedWhiskyListItem.mk "Y1" ""] ++ ScrapedWhiskyListItem.mk "X" "" ::
          [ScrapedWhiskyListItem.mk "Y2" ""]) =
      scrapeWhiskyDetails
        (fun w => if w.title = "X" then .error () else .ok (some sampleWhisky))
        [ScrapedWhiskyListItem.mk "Y1" ""] ++
      scrapeWhiskyDetails
        (fun w => if w.title = "X" then .error () else .ok (some sampleWhisky))
        [ScrapedWhiskyListItem.mk "Y2" ""] ∧
    ∀ ws : List ScrapedWhiskyListItem,
      (scrapeWhiskyDetails
        (fun w => if w.title = "X" then .error () else .ok (some sampleWhisky)) ws).length ≤
        ws.length :=
  scrapeWhiskyDetails_isolates_failures _ _ _ _ (Or.inl rfl)

end Backend
